import Mathlib

/-!
Verification development for the design-match-vision repository.

The repository compares a reference design image (Figma export) against a
screenshot of a rendered page.  The code under `src/` contains the Express
boundary (`backend/server.js`), the comparison wrapper
(`compareImages` / `compareImagesWithTolerance` in the backend compare
module) and thin I/O collaborators.  The pixel-level comparison engine
itself is the external resemble.js library and is not part of the
repository's sources; following the specification, the engine (size
normalizer, pixel comparator, anti-aliasing filter, diff renderer) is
modelled here from the spec's words, while everything else is a direct
shallow embedding of the JavaScript in `src/`.

JavaScript numbers are modelled as exact rationals (`ℚ`); `toFixed(2)` is
modelled as rounding to the nearest hundredth (for the non-negative values
that occur here JS `toFixed` rounds ties up, matching Mathlib's `round`).
Timestamps (`new Date()`) are modelled by passing an explicit clock value.
The filesystem is modelled as a partial map from paths to decoded images,
and writes performed by a call are returned explicitly.
-/

/-- One RGBA pixel of an already-decoded raster image. -/
structure Pixel where
  r : Nat
  g : Nat
  b : Nat
  a : Nat
deriving DecidableEq, Repr

/-- An immutable decoded 2D grid of pixels (spec §3 RasterImage).  `px x y`
is the pixel at column `x`, row `y`; values outside the bounds are never
inspected by the operations below. -/
structure RasterImage where
  width : Nat
  height : Nat
  px : Nat → Nat → Pixel

/-- Output settings of the comparison engine, mirroring the `output` object
of `defaultOptions` in the backend compare module. -/
structure OutputSettings where
  errorRed : Nat
  errorGreen : Nat
  errorBlue : Nat
  errorType : String
  transparency : ℚ
  largeImageThreshold : Nat
  useCrossOrigin : Bool
  outputDiff : Bool
deriving DecidableEq, Repr

/-- The `output` part of `defaultOptions` in the backend compare module:
magenta highlight, movement mode, transparency 0.3, threshold 1200. -/
def defaultOutputSettings : OutputSettings :=
  { errorRed := 255
    errorGreen := 0
    errorBlue := 255
    errorType := "movement"
    transparency := 3 / 10
    largeImageThreshold := 1200
    useCrossOrigin := false
    outputDiff := true }

/-- Comparison policy as consumed by the engine (spec §3 ComparisonPolicy):
the wrapper derives `ignoreColors` / `ignoreAntialiasing` from its `ignore`
list and passes `scaleToSameSize` and the output settings through. -/
structure Policy where
  ignoreColors : Bool
  ignoreAntialiasing : Bool
  scaleToSameSize : Bool
  output : OutputSettings

/-- Modelled from the spec: the luminance-only representation used by the
engine when `ignoreColors` is set (spec §4.2); the engine itself
(resemble.js) is not in `src/`.  Integer ITU-R 601 weights. -/
def luminance (p : Pixel) : Nat :=
  299 * p.r + 587 * p.g + 114 * p.b

/-- Modelled from the spec: per-pixel distance test of the engine
(spec §4.2), absent from `src/`.  With `ignoreColors` only luminance is
compared, otherwise the full RGBA values. -/
def pixelsDiffer (ignColors : Bool) (p q : Pixel) : Bool :=
  if ignColors then decide (luminance p ≠ luminance q) else decide (p ≠ q)

/-- The eight offsets of a 3×3 neighbourhood around a pixel. -/
def neighborOffsets : List (Int × Int) :=
  [(-1, -1), (-1, 0), (-1, 1), (0, -1), (0, 1), (1, -1), (1, 0), (1, 1)]

/-- Modelled from the spec: the in-bounds neighbours of position `(x, y)`
in the 3×3 window used by the anti-aliasing test (spec §4.2), absent from
`src/`. -/
def neighborPixels (img : RasterImage) (x y : Nat) : List Pixel :=
  neighborOffsets.filterMap fun d =>
    let nx : Int := (x : Int) + d.1
    let ny : Int := (y : Int) + d.2
    if 0 ≤ nx ∧ nx < (img.width : Int) ∧ 0 ≤ ny ∧ ny < (img.height : Int) then
      some (img.px nx.toNat ny.toNat)
    else none

/-- Modelled from the spec: whether the pixel's colour lies within the
range spanned by its own neighbouring pixels (spec §4.2), channel-wise;
part of the engine absent from `src/`. -/
def withinNeighborRange (img : RasterImage) (x y : Nat) : Bool :=
  let p := img.px x y
  let ns := neighborPixels img x y
  (ns.any fun q => decide (q.r ≤ p.r)) && (ns.any fun q => decide (p.r ≤ q.r)) &&
  (ns.any fun q => decide (q.g ≤ p.g)) && (ns.any fun q => decide (p.g ≤ q.g)) &&
  (ns.any fun q => decide (q.b ≤ p.b)) && (ns.any fun q => decide (p.b ≤ q.b))

/-- Modelled from the spec: a difference at `(x, y)` is attributable to
anti-aliased edge smoothing when the neighbourhood test succeeds in either
image (spec §4.2); part of the engine absent from `src/`. -/
def aaArtifact (img1 img2 : RasterImage) (x y : Nat) : Bool :=
  withinNeighborRange img1 x y || withinNeighborRange img2 x y

/-- Modelled from the spec: classification of position `(x, y)` as
divergent (spec §4.2) — pixels differ under the active colour policy and,
when `ignoreAntialiasing` is set, the difference is not an anti-aliasing
artifact.  Part of the engine absent from `src/`. -/
def divergent (pol : Policy) (img1 img2 : RasterImage) (x y : Nat) : Bool :=
  pixelsDiffer pol.ignoreColors (img1.px x y) (img2.px x y) &&
  !(pol.ignoreAntialiasing && aaArtifact img1 img2 x y)

/-- Modelled from the spec: the running divergence count over all pixel
positions of the (same-sized) pair (spec §4.2); part of the engine absent
from `src/`. -/
def divergentCount (pol : Policy) (img1 img2 : RasterImage) : Nat :=
  ((Finset.range img1.width ×ˢ Finset.range img1.height).filter
    fun p => divergent pol img1 img2 p.1 p.2 = true).card

/-- Modelled from the spec: `mismatchPercentage = divergentPixels /
totalPixels * 100` (spec §4.2, no policy-specific adjustment exists, so raw
and adjusted coincide); part of the engine absent from `src/`. -/
def misMatchOf (pol : Policy) (img1 img2 : RasterImage) : ℚ :=
  (divergentCount pol img1 img2 : ℚ) * 100 / ((img1.width * img1.height : Nat) : ℚ)

/-- Absolute difference of two naturals, used for the dimension delta. -/
def natAbsDiff (a b : Nat) : Nat := max a b - min a b

/-- Modelled from the spec: deterministic resampling of an image to target
dimensions (spec §4.1 fixed interpolation method; nearest-neighbour is the
fixed deterministic choice here); part of the engine absent from `src/`. -/
def resampleTo (img : RasterImage) (w h : Nat) : RasterImage :=
  { width := w
    height := h
    px := fun x y => img.px (x * img.width / w) (y * img.height / h) }

/-- Alpha blend of one channel of the highlight colour over the base
channel with the configured transparency. -/
def blendChannel (t : ℚ) (e base : Nat) : Nat :=
  ((1 - t) * (e : ℚ) + t * (base : ℚ)).floor.toNat

/-- Modelled from the spec: blending the error-highlight colour over a base
pixel (spec §4.3); part of the engine absent from `src/`. -/
def blendPixel (o : OutputSettings) (base : Pixel) : Pixel :=
  { r := blendChannel o.transparency o.errorRed base.r
    g := blendChannel o.transparency o.errorGreen base.g
    b := blendChannel o.transparency o.errorBlue base.b
    a := base.a }

/-- Modelled from the spec: the diff raster (spec §4.3) — base layer the
candidate image, divergent pixels highlighted, output dimensions the
normalized comparison dimensions; part of the engine absent from `src/`. -/
def renderDiff (pol : Policy) (img1 img2 : RasterImage) : RasterImage :=
  { width := img1.width
    height := img1.height
    px := fun x y =>
      if divergent pol img1 img2 x y then blendPixel pol.output (img2.px x y)
      else img2.px x y }

/-- Failure conditions of the comparison engine (spec §7). -/
inductive CompareFailure where
  | DimensionMismatch : CompareFailure
deriving DecidableEq, Repr

/-- The data handed to `onComplete` by the engine: mismatch percentages,
dimension information and the diff raster (spec §3 ComparisonResult). -/
structure EngineData where
  misMatchPercentage : ℚ
  rawMisMatchPercentage : ℚ
  isSameDimensions : Bool
  dimensionDifference : Nat × Nat
  diffImage : RasterImage

/-- Modelled from the spec: the comparison engine (resemble.js), which is
not part of the repository's sources.  Per spec §4.1: equal dimensions pass
through; unequal dimensions with `scaleToSameSize` resample to the common
(larger) dimensions, recording the original delta and
`isSameDimensions = false`; unequal dimensions without `scaleToSameSize`
fail with `DimensionMismatch`. -/
def analyse (pol : Policy) (img1 img2 : RasterImage) :
    Except CompareFailure EngineData :=
  if img1.width = img2.width ∧ img1.height = img2.height then
    .ok { misMatchPercentage := misMatchOf pol img1 img2
          rawMisMatchPercentage := misMatchOf pol img1 img2
          isSameDimensions := true
          dimensionDifference := (0, 0)
          diffImage := renderDiff pol img1 img2 }
  else if pol.scaleToSameSize then
    let tw := max img1.width img2.width
    let th := max img1.height img2.height
    let na := resampleTo img1 tw th
    let nb := resampleTo img2 tw th
    .ok { misMatchPercentage := misMatchOf pol na nb
          rawMisMatchPercentage := misMatchOf pol na nb
          isSameDimensions := false
          dimensionDifference :=
            (natAbsDiff img1.width img2.width, natAbsDiff img1.height img2.height)
          diffImage := renderDiff pol na nb }
  else .error .DimensionMismatch

/-- Options accepted by `compareImages`; `none` fields fall back to the
defaults, matching the shallow merge
`{ ...defaultOptions, ...options }` in the backend compare module. -/
structure CompareOptions where
  output : Option OutputSettings := none
  scaleToSameSize : Option Bool := none
  ignore : Option (List String) := none

/-- The `ignore` list of `defaultOptions` in the backend compare module. -/
def defaultIgnore : List String :=
  ["antialiasing", "colors", "less", "nothing"]

/-- Fully-resolved comparison options after the shallow merge. -/
structure MergedOptions where
  output : OutputSettings
  scaleToSameSize : Bool
  ignore : List String

/-- The shallow merge `{ ...defaultOptions, ...options }` performed by
`compareImages`: a caller-supplied top-level field replaces the default
wholesale (`defaultOptions.scaleToSameSize` is `true`). -/
def mergeOptions (o : CompareOptions) : MergedOptions :=
  { output := o.output.getD defaultOutputSettings
    scaleToSameSize := o.scaleToSameSize.getD true
    ignore := o.ignore.getD defaultIgnore }

/-- The engine policy derived by `compareImages` from the merged options:
`.ignoreColors(ignore.includes('colors'))`,
`.ignoreAntialiasing(ignore.includes('antialiasing'))`,
`.scaleToSameSize(...)`, `.outputSettings(...)`. -/
def policyOf (m : MergedOptions) : Policy :=
  { ignoreColors := m.ignore.contains "colors"
    ignoreAntialiasing := m.ignore.contains "antialiasing"
    scaleToSameSize := m.scaleToSameSize
    output := m.output }

/-- `path.dirname`, modelled over slash-separated paths. -/
def dirnameOf (p : String) : String :=
  let parts := p.splitOn "/"
  if parts.length ≤ 1 then "." else String.intercalate "/" parts.dropLast

/-- The diff image path chosen by `compareImages`:
`path.join(path.dirname(image1Path), 'diff.png')`. -/
def diffPathOf (p : String) : String :=
  dirnameOf p ++ "/diff.png"

/-- Errors raised by `compareImages`: the two input-validation throws
(`First image not found: …`, `Second image not found: …`) and a
propagated engine failure. -/
inductive CompareError where
  | firstImageNotFound (p : String)
  | secondImageNotFound (p : String)
  | engineFailure (f : CompareFailure)
deriving DecidableEq, Repr

/-- The result object built by `compareImages` in its `onComplete`
handler (the nested `rawData` is flattened to its
`rawMisMatchPercentage` field; `diffBounds` is engine-internal and not
modelled).  `analysisTime` is the clock value at comparison completion. -/
structure CompResult where
  misMatchPercentage : ℚ
  isSameDimensions : Bool
  dimensionDifference : Nat × Nat
  analysisTime : Nat
  diffImagePath : String
  rawMisMatchPercentage : ℚ
deriving DecidableEq, Repr

/-- Shallow embedding of `compareImages` from the backend compare module.
The filesystem is a map from paths to decoded images (`none` = no such
file, as tested by `fs.existsSync`).  The returned list is the set of
files written by the call: the diff image is written only after the
engine completes successfully, and the validation throws happen before
any comparison work. -/
def compareImagesRun (fsys : String → Option RasterImage) (p1 p2 : String)
    (opts : CompareOptions) (now : Nat) :
    Except CompareError CompResult × List (String × RasterImage) :=
  match fsys p1 with
  | none => (.error (.firstImageNotFound p1), [])
  | some i1 =>
    match fsys p2 with
    | none => (.error (.secondImageNotFound p2), [])
    | some i2 =>
      let pol := policyOf (mergeOptions opts)
      match analyse pol i1 i2 with
      | .error f => (.error (.engineFailure f), [])
      | .ok data =>
        (.ok { misMatchPercentage := data.misMatchPercentage
               isSameDimensions := data.isSameDimensions
               dimensionDifference := data.dimensionDifference
               analysisTime := now
               diffImagePath := diffPathOf p1
               rawMisMatchPercentage := data.rawMisMatchPercentage },
         [(diffPathOf p1, data.diffImage)])

/-- The object returned by `compareImagesWithTolerance`: the comparison
result spread together with `passed`, `tolerance`, `status` and
`message`. -/
structure ToleranceResult where
  result : CompResult
  passed : Bool
  tolerance : ℚ
  status : String
  message : String
deriving DecidableEq, Repr

/-- Shallow embedding of `compareImagesWithTolerance` from the backend
compare module: `passed = result.misMatchPercentage <= tolerance`,
`status = passed ? 'PASS' : 'FAIL'`. -/
def compareImagesWithTolerance (fsys : String → Option RasterImage)
    (p1 p2 : String) (tolerance : ℚ) (opts : CompareOptions) (now : Nat) :
    Except CompareError ToleranceResult :=
  match (compareImagesRun fsys p1 p2 opts now).1 with
  | .error e => .error e
  | .ok r =>
    let passed := decide (r.misMatchPercentage ≤ tolerance)
    .ok { result := r
          passed := passed
          tolerance := tolerance
          status := if passed then "PASS" else "FAIL"
          message :=
            if passed then
              "Images match within tolerance (" ++ toString tolerance ++ "%)"
            else
              "Images exceed tolerance (" ++ toString tolerance ++ "%)" }

/-- JS `x.toFixed(2)` on the non-negative numbers occurring here: round to
the nearest hundredth, ties up. -/
def round2 (q : ℚ) : ℚ :=
  ((round (100 * q) : ℤ) : ℚ) / 100

/-- Modelled from the spec's words for comparison with the code:
`clamp(x, lo, hi)` as used in the spec's Report Builder formula
`matchScore = clamp(100 − mismatchPercentage, 0, 100)`. -/
def clampSpec (x lo hi : ℚ) : ℚ :=
  min (max x lo) hi

/-- The JSON body built by the `/compare` and `/compare-file` handlers in
`backend/server.js` on success. -/
structure CompareResponse where
  matchScore : ℚ
  misMatchPercentage : ℚ
  diffImagePath : String
  analysisTime : Nat
  figmaImage : String
  codeImage : String
deriving DecidableEq, Repr

/-- Shallow embedding of the response building in `backend/server.js`
(identical in `/compare` and `/compare-file`):
`matchScore = (100 - parseFloat(m)).toFixed(2)`,
`misMatchPercentage = parseFloat(m).toFixed(2)`,
`analysisTime = new Date().toISOString()` — a fresh clock reading `now`
taken when the response is built, independent of the comparison result's
own `analysisTime`. -/
def buildCompareResponse (r : CompResult) (now : Nat) : CompareResponse :=
  { matchScore := round2 (100 - r.misMatchPercentage)
    misMatchPercentage := round2 r.misMatchPercentage
    diffImagePath := "/diff.png"
    analysisTime := now
    figmaImage := "/figma.png"
    codeImage := "/code.png" }

/-- Failure kinds of the `/compare` pipeline steps (spec §7 taxonomy):
image download (acquisition), screenshot (render), decoding, comparison,
or an unexpected internal fault. -/
inductive PipelineError where
  | acquisitionError
  | renderError
  | decodeError
  | comparisonError
  | internalError
deriving DecidableEq, Repr

/-- A `/compare` request body: both fields are required by the handler's
validation. -/
structure CompareRequest where
  figmaImageUrl : Option String
  pageUrl : Option String

/-- Body of an HTTP response from the `/compare` handler. -/
inductive ResponseBody where
  | report (r : CompareResponse)
  | errorMessage (e : String)
deriving DecidableEq, Repr

/-- An HTTP response: status code plus JSON body. -/
structure HttpResponse where
  status : Nat
  body : ResponseBody
deriving DecidableEq, Repr

/-- Shallow embedding of the `/compare` handler in `backend/server.js`:
missing parameters yield `400`; the download → screenshot → compare
pipeline (whose outcome is passed in as `pipeline`) is wrapped in a single
`try/catch` whose catch maps every error, of whatever kind, to `500`; on
success the report is built with a fresh clock reading and returned with
status `200`. -/
def postCompare (req : CompareRequest)
    (pipeline : Except PipelineError CompResult) (now : Nat) : HttpResponse :=
  if req.figmaImageUrl.isNone || req.pageUrl.isNone then
    { status := 400, body := .errorMessage "Missing required parameters" }
  else
    match pipeline with
    | .error _ => { status := 500, body := .errorMessage "Comparison failed" }
    | .ok r => { status := 200, body := .report (buildCompareResponse r now) }

/-- A status code in the client-error (4xx) class. -/
def isClientError (s : Nat) : Prop :=
  400 ≤ s ∧ s < 500

/-- A status code in the server-error (5xx) class. -/
def isServerError (s : Nat) : Prop :=
  500 ≤ s ∧ s < 600

/-- A 1×1 black image used as a concrete test input. -/
def sampleImage : RasterImage :=
  ⟨1, 1, fun _ _ => ⟨0, 0, 0, 255⟩⟩

/-- A 2×1 black image used as a concrete test input. -/
def sampleWide : RasterImage :=
  ⟨2, 1, fun _ _ => ⟨0, 0, 0, 255⟩⟩

/-- A 50×50 black image used as a concrete test input. -/
def sample50 : RasterImage :=
  ⟨50, 50, fun _ _ => ⟨0, 0, 0, 255⟩⟩

/-- A 100×100 black image used as a concrete test input. -/
def sample100 : RasterImage :=
  ⟨100, 100, fun _ _ => ⟨0, 0, 0, 255⟩⟩

/-- A filesystem holding `sampleImage` at both `a` and `b`. -/
def fsBoth : String → Option RasterImage := fun s =>
  if s = "a" ∨ s = "b" then some sampleImage else none

/-- A filesystem holding `sampleImage` at `a` only. -/
def fsOnlyA : String → Option RasterImage := fun s =>
  if s = "a" then some sampleImage else none

/-- The empty filesystem. -/
def fsEmpty : String → Option RasterImage := fun _ => none

/-- A filesystem with a 1×1 image at `a` and a 2×1 image at `b`. -/
def fsMismatched : String → Option RasterImage := fun s =>
  if s = "a" then some sampleImage else if s = "b" then some sampleWide else none

/-- A filesystem with a 50×50 image at `a` and a 100×100 image at `b`. -/
def fsScaled : String → Option RasterImage := fun s =>
  if s = "a" then some sample50 else if s = "b" then some sample100 else none

/-- A sample comparison result with mismatch percentage 12.45. -/
def sampleResult : CompResult :=
  { misMatchPercentage := 1245 / 100
    isSameDimensions := true
    dimensionDifference := (0, 0)
    analysisTime := 0
    diffImagePath := "backend/assets/diff.png"
    rawMisMatchPercentage := 1245 / 100 }

/-- A 3×3 horizontal grey ramp (an anti-aliased edge): columns 200, 100,
0. -/
def aaBase : RasterImage :=
  ⟨3, 3, fun x _ =>
    if x = 0 then ⟨200, 200, 200, 255⟩
    else if x = 1 then ⟨100, 100, 100, 255⟩
    else ⟨0, 0, 0, 255⟩⟩

/-- `aaBase` with its centre pixel re-blended to 120 grey: the pair
`(aaAlt, aaBase)` differs only inside the anti-aliased edge ramp. -/
def aaAlt : RasterImage :=
  ⟨3, 3, fun x y => if x = 1 ∧ y = 1 then ⟨120, 120, 120, 255⟩ else aaBase.px x y⟩

/-- A policy comparing full colours, with no anti-aliasing suppression. -/
def aaPolicy : Policy :=
  ⟨false, false, true, defaultOutputSettings⟩

/-- The comparison result produced by running `compareImages` over
`fsBoth` with default options: identical 1×1 inputs, zero mismatch. -/
def sampleRunResult : CompResult :=
  { misMatchPercentage := 0
    isSameDimensions := true
    dimensionDifference := (0, 0)
    analysisTime := 0
    diffImagePath := diffPathOf "a"
    rawMisMatchPercentage := 0 }

/-- The value produced by `compareImagesWithTolerance` over `fsBoth` with
tolerance 5: zero mismatch, `passed`, status `PASS`. -/
def sampleTolResult : ToleranceResult :=
  { result := sampleRunResult
    passed := true
    tolerance := 5
    status := "PASS"
    message := "Images match within tolerance (" ++ toString (5 : ℚ) ++ "%)" }

/-- A 1×1 white image used as a concrete test input. -/
def sampleWhite : RasterImage :=
  ⟨1, 1, fun _ _ => ⟨255, 255, 255, 255⟩⟩

/-- A filesystem with the 1×1 black image at `a` and the 1×1 white image
at `b`: a fully divergent pair. -/
def fsBW : String → Option RasterImage := fun s =>
  if s = "a" then some sampleImage else if s = "b" then some sampleWhite else none

/-- The comparison result produced by running `compareImages` over `fsBW`
with default options: the single pixel diverges, mismatch 100. -/
def failRunResult : CompResult :=
  { misMatchPercentage := 100
    isSameDimensions := true
    dimensionDifference := (0, 0)
    analysisTime := 0
    diffImagePath := diffPathOf "a"
    rawMisMatchPercentage := 100 }

/-- The value produced by `compareImagesWithTolerance` over `fsBW` with
tolerance 5: mismatch 100 exceeds it, status `FAIL`. -/
def failTolResult : ToleranceResult :=
  { result := failRunResult
    passed := false
    tolerance := 5
    status := "FAIL"
    message := "Images exceed tolerance (" ++ toString (5 : ℚ) ++ "%)" }

theorem pixelsDiffer_self (ic : Bool) (p : Pixel) : pixelsDiffer ic p p = false := by
  unfold pixelsDiffer
  cases ic <;> simp

theorem divergent_self (pol : Policy) (img : RasterImage) (x y : Nat) :
    divergent pol img img x y = false := by
  unfold divergent
  rw [pixelsDiffer_self, Bool.false_and]

theorem divergentCount_eq_zero (pol : Policy) (img1 img2 : RasterImage)
    (h : ∀ x, x < img1.width → ∀ y, y < img1.height →
      divergent pol img1 img2 x y = false) :
    divergentCount pol img1 img2 = 0 := by
  unfold divergentCount
  rw [Finset.card_eq_zero, Finset.filter_eq_empty_iff]
  rintro ⟨x, y⟩ hp
  rw [Finset.mem_product, Finset.mem_range, Finset.mem_range] at hp
  simp [h x hp.1 y hp.2]

theorem divergentCount_pos (pol : Policy) (img1 img2 : RasterImage) (x y : Nat)
    (hx : x < img1.width) (hy : y < img1.height)
    (hd : divergent pol img1 img2 x y = true) :
    0 < divergentCount pol img1 img2 := by
  unfold divergentCount
  rw [Finset.card_pos]
  exact ⟨(x, y), Finset.mem_filter.mpr
    ⟨Finset.mem_product.mpr ⟨Finset.mem_range.mpr hx, Finset.mem_range.mpr hy⟩, hd⟩⟩

theorem misMatchOf_self (pol : Policy) (img : RasterImage) :
    misMatchOf pol img img = 0 := by
  unfold misMatchOf
  rw [divergentCount_eq_zero pol img img fun x _ y _ => divergent_self pol img x y]
  simp

theorem misMatchOf_pos (pol : Policy) (img1 img2 : RasterImage)
    (hc : 0 < divergentCount pol img1 img2)
    (ht : 0 < img1.width * img1.height) :
    0 < misMatchOf pol img1 img2 := by
  unfold misMatchOf
  have h1 : (0 : ℚ) < (divergentCount pol img1 img2 : ℚ) := by exact_mod_cast hc
  have h2 : (0 : ℚ) < ((img1.width * img1.height : Nat) : ℚ) := by exact_mod_cast ht
  exact div_pos (mul_pos h1 (by norm_num)) h2

theorem abs_round2_sub_le (q : ℚ) : |round2 q - q| ≤ 1 / 200 := by
  have h := abs_sub_round (100 * q)
  rw [abs_sub_comm] at h
  have e : round2 q - q = (((round (100 * q) : ℤ) : ℚ) - 100 * q) / 100 := by
    simp only [round2]
    ring
  rw [e, abs_div, abs_of_pos (by norm_num : (0 : ℚ) < (100 : ℚ))]
  calc |((round (100 * q) : ℤ) : ℚ) - 100 * q| / 100
      ≤ (1 / 2) / 100 := by
        exact (div_le_div_iff_of_pos_right (by norm_num : (0 : ℚ) < 100)).mpr h
    _ = 1 / 200 := by norm_num

/-- C1: for every comparison result whose mismatch percentage `m` lies in
`[0, 100]`, the report's `matchScore` equals `clamp(100 − m, 0, 100)` and
`matchScore + misMatchPercentage = 100`, both within the two-decimal
rounding performed at the report boundary. -/
theorem matchScore_clamp_complement (r : CompResult) (now : Nat)
    (h0 : 0 ≤ r.misMatchPercentage) (h100 : r.misMatchPercentage ≤ 100) :
    |(buildCompareResponse r now).matchScore -
      clampSpec (100 - r.misMatchPercentage) 0 100| ≤ 1 / 200 ∧
    |(buildCompareResponse r now).matchScore +
      (buildCompareResponse r now).misMatchPercentage - 100| ≤ 1 / 100 := by
  have hclamp : clampSpec (100 - r.misMatchPercentage) 0 100 =
      100 - r.misMatchPercentage := by
    unfold clampSpec
    rw [max_eq_left (by linarith), min_eq_left (by linarith)]
  have hm := abs_round2_sub_le r.misMatchPercentage
  have hs := abs_round2_sub_le (100 - r.misMatchPercentage)
  simp only [buildCompareResponse]
  refine ⟨by rw [hclamp]; exact hs, ?_⟩
  have e : round2 (100 - r.misMatchPercentage) + round2 r.misMatchPercentage - 100 =
      (round2 (100 - r.misMatchPercentage) - (100 - r.misMatchPercentage)) +
      (round2 r.misMatchPercentage - r.misMatchPercentage) := by ring
  rw [e]
  calc |(round2 (100 - r.misMatchPercentage) - (100 - r.misMatchPercentage)) +
        (round2 r.misMatchPercentage - r.misMatchPercentage)|
      ≤ |round2 (100 - r.misMatchPercentage) - (100 - r.misMatchPercentage)| +
        |round2 r.misMatchPercentage - r.misMatchPercentage| := abs_add _ _
    _ ≤ 1 / 200 + 1 / 200 := add_le_add hs hm
    _ = 1 / 100 := by norm_num

/-- Witness for the C1 theorem at mismatch percentage 12.45. -/
theorem matchScore_clamp_complement_witness :
    |(buildCompareResponse sampleResult 0).matchScore -
      clampSpec (100 - sampleResult.misMatchPercentage) 0 100| ≤ 1 / 200 ∧
    |(buildCompareResponse sampleResult 0).matchScore +
      (buildCompareResponse sampleResult 0).misMatchPercentage - 100| ≤ 1 / 100 :=
  matchScore_clamp_complement sampleResult 0
    (by norm_num [sampleResult]) (by norm_num [sampleResult])

/-- C4: for every comparison result, both values reported at the boundary
are exact multiples of one hundredth (exactly two decimal digits) and lie
within half a hundredth of the value computed in (exact) arithmetic — the
defining property of rounding as opposed to truncation. -/
theorem report_two_decimal_rounding (r : CompResult) (now : Nat) :
    (∃ k : ℤ, (buildCompareResponse r now).misMatchPercentage = (k : ℚ) / 100 ∧
      |(buildCompareResponse r now).misMatchPercentage - r.misMatchPercentage|
        ≤ 1 / 200) ∧
    (∃ j : ℤ, (buildCompareResponse r now).matchScore = (j : ℚ) / 100 ∧
      |(buildCompareResponse r now).matchScore - (100 - r.misMatchPercentage)|
        ≤ 1 / 200) := by
  simp only [buildCompareResponse]
  exact ⟨⟨round (100 * r.misMatchPercentage), rfl, abs_round2_sub_le _⟩,
         ⟨round (100 * (100 - r.misMatchPercentage)), rfl, abs_round2_sub_le _⟩⟩

/-- C7: the `analysisTime` of the returned report is the clock reading
taken when the response is built, independent of the comparison result's
own recorded time, so building the response twice at different instants
from the same cached result yields two different timestamps. -/
theorem report_timestamp_at_format_time (r : CompResult) (t1 t2 : Nat)
    (h : t1 ≠ t2) :
    (buildCompareResponse r t1).analysisTime = t1 ∧
    (buildCompareResponse r t2).analysisTime = t2 ∧
    (buildCompareResponse r t1).analysisTime ≠
      (buildCompareResponse r t2).analysisTime := by
  refine ⟨rfl, rfl, ?_⟩
  simpa [buildCompareResponse] using h

/-- Witness for the C7 theorem at clock readings 0 and 1. -/
theorem report_timestamp_at_format_time_witness :
    (buildCompareResponse sampleResult 0).analysisTime = 0 ∧
    (buildCompareResponse sampleResult 1).analysisTime = 1 ∧
    (buildCompareResponse sampleResult 0).analysisTime ≠
      (buildCompareResponse sampleResult 1).analysisTime :=
  report_timestamp_at_format_time sampleResult 0 1 (by decide)

/-- C6 counterexample: a request whose image download fails with an
acquisition error (a bad-input condition) receives status 500 from the
`/compare` handler, which is not a 4xx-equivalent client error. -/
theorem acquisition_error_not_client_error :
    (postCompare ⟨some "f", some "p"⟩
      (Except.error PipelineError.acquisitionError) 0).status = 500 ∧
    ¬ isClientError (postCompare ⟨some "f", some "p"⟩
      (Except.error PipelineError.acquisitionError) 0).status := by
  refine ⟨rfl, ?_⟩
  intro h
  rw [show (postCompare ⟨some "f", some "p"⟩
      (Except.error PipelineError.acquisitionError) 0).status = 500 from rfl] at h
  exact absurd h.2 (by norm_num)

/-- C6 (amended): the `/compare` boundary returns 400 only for missing
request parameters; every pipeline failure — acquisition, render, decode,
comparison or internal — is mapped to the single server-error status 500;
and the comparison report is returned only on full success. -/
theorem boundary_status_mapping (req : CompareRequest)
    (pl : Except PipelineError CompResult) (now : Nat) :
    ((req.figmaImageUrl.isNone || req.pageUrl.isNone) = true →
      (postCompare req pl now).status = 400) ∧
    (∀ e : PipelineError,
      (req.figmaImageUrl.isNone || req.pageUrl.isNone) = false →
      pl = .error e → isServerError (postCompare req pl now).status) ∧
    (∀ resp : CompareResponse, (postCompare req pl now).body = .report resp →
      (req.figmaImageUrl.isNone || req.pageUrl.isNone) = false ∧
      ∃ r, pl = .ok r ∧ resp = buildCompareResponse r now) := by
  cases hb : (req.figmaImageUrl.isNone || req.pageUrl.isNone) with
  | true =>
    refine ⟨fun _ => ?_, fun e hf _ => ?_, fun resp hr => ?_⟩
    · simp [postCompare, hb]
    · exact Bool.noConfusion hf
    · simp [postCompare, hb] at hr
  | false =>
    cases pl with
    | error e =>
      refine ⟨fun ht => ?_, fun e2 _ _ => ?_, fun resp hr => ?_⟩
      · exact Bool.noConfusion ht
      · simp [postCompare, hb, isServerError]
      · simp [postCompare, hb] at hr
    | ok r =>
      refine ⟨fun ht => ?_, fun e2 _ heq => ?_, fun resp hr => ?_⟩
      · exact Bool.noConfusion ht
      · exact Except.noConfusion heq
      · simp only [postCompare, hb, Bool.false_eq_true, if_false] at hr
        refine ⟨rfl, r, rfl, ?_⟩
        cases hr
        rfl

/-- Witness for the C6 amended theorem: a request with a missing parameter
gets 400, and a request whose pipeline fails gets a 5xx status. -/
theorem boundary_status_mapping_witness :
    (postCompare ⟨none, some "p"⟩
      (Except.error PipelineError.acquisitionError) 0).status = 400 ∧
    isServerError (postCompare ⟨some "f", some "p"⟩
      (Except.error PipelineError.acquisitionError) 0).status :=
  ⟨(boundary_status_mapping ⟨none, some "p"⟩
      (Except.error PipelineError.acquisitionError) 0).1 rfl,
   (boundary_status_mapping ⟨some "f", some "p"⟩
      (Except.error PipelineError.acquisitionError) 0).2.1
      PipelineError.acquisitionError rfl rfl⟩

/-- C10: when an input path names no existing file, `compareImages` fails
with an error identifying which image was not found, and the call writes
no file at all — in particular no diff image. -/
theorem missing_input_fails_without_diff (fsys : String → Option RasterImage)
    (p1 p2 : String) (opts : CompareOptions) (now : Nat) :
    (fsys p1 = none →
      compareImagesRun fsys p1 p2 opts now =
        (.error (.firstImageNotFound p1), [])) ∧
    (∀ i1, fsys p1 = some i1 → fsys p2 = none →
      compareImagesRun fsys p1 p2 opts now =
        (.error (.secondImageNotFound p2), [])) := by
  constructor
  · intro h1
    simp [compareImagesRun, h1]
  · intro i1 h1 h2
    simp [compareImagesRun, h1, h2]

/-- Witness for the C10 theorem on concrete filesystems missing the first
or the second image. -/
theorem missing_input_fails_without_diff_witness :
    compareImagesRun fsEmpty "a" "b" {} 0 =
      (.error (.firstImageNotFound "a"), []) ∧
    compareImagesRun fsOnlyA "a" "b" {} 0 =
      (.error (.secondImageNotFound "b"), []) :=
  ⟨(missing_input_fails_without_diff fsEmpty "a" "b" {} 0).1 rfl,
   (missing_input_fails_without_diff fsOnlyA "a" "b" {} 0).2 sampleImage rfl rfl⟩

/-- C9: whenever `compareImagesWithTolerance` succeeds, `passed` holds
exactly when the mismatch percentage is at most the tolerance (the
boundary case passes), `status` is `PASS` exactly when `passed` is
`true`, and `status` is `FAIL` exactly when `passed` is `false`. -/
theorem tolerance_pass_boundary (fsys : String → Option RasterImage)
    (p1 p2 : String) (tol : ℚ) (opts : CompareOptions) (now : Nat)
    (tr : ToleranceResult)
    (h : compareImagesWithTolerance fsys p1 p2 tol opts now = .ok tr) :
    (tr.passed = true ↔ tr.result.misMatchPercentage ≤ tol) ∧
    (tr.result.misMatchPercentage = tol → tr.passed = true) ∧
    ((tr.status = "PASS") ↔ tr.passed = true) ∧
    ((tr.status = "FAIL") ↔ tr.passed = false) := by
  unfold compareImagesWithTolerance at h
  cases hrun : (compareImagesRun fsys p1 p2 opts now).1 with
  | error e =>
    rw [hrun] at h
    exact Except.noConfusion h
  | ok r =>
    rw [hrun] at h
    simp only [Except.ok.injEq] at h
    subst h
    refine ⟨?_, ?_, ?_, ?_⟩
    · simp [decide_eq_true_iff]
    · intro he
      have he2 : r.misMatchPercentage = tol := he
      simp [he2]
    · by_cases hle : r.misMatchPercentage ≤ tol
      · simp [hle]
      · simp [hle]
    · by_cases hle : r.misMatchPercentage ≤ tol
      · simp [hle]
      · simp [hle]

theorem sampleRun_ok : (compareImagesRun fsBoth "a" "b" {} 0).1 =
    .ok sampleRunResult := by
  have hfa : fsBoth "a" = some sampleImage := by simp [fsBoth]
  have hfb : fsBoth "b" = some sampleImage := by simp [fsBoth]
  have ha : analyse (policyOf (mergeOptions {})) sampleImage sampleImage = .ok
      { misMatchPercentage := 0
        rawMisMatchPercentage := 0
        isSameDimensions := true
        dimensionDifference := (0, 0)
        diffImage := renderDiff (policyOf (mergeOptions {})) sampleImage sampleImage } := by
    unfold analyse
    rw [if_pos ⟨rfl, rfl⟩, misMatchOf_self]
  simp [compareImagesRun, hfa, hfb, ha, sampleRunResult]

theorem sampleTol_ok : compareImagesWithTolerance fsBoth "a" "b" 5 {} 0 =
    .ok sampleTolResult := by
  have hd : decide (sampleRunResult.misMatchPercentage ≤ (5 : ℚ)) = true :=
    decide_eq_true (by norm_num [sampleRunResult])
  unfold compareImagesWithTolerance
  rw [sampleRun_ok]
  show Except.ok
      { result := sampleRunResult
        passed := decide (sampleRunResult.misMatchPercentage ≤ (5 : ℚ))
        tolerance := (5 : ℚ)
        status :=
          if decide (sampleRunResult.misMatchPercentage ≤ (5 : ℚ)) = true then
            "PASS"
          else "FAIL"
        message :=
          if decide (sampleRunResult.misMatchPercentage ≤ (5 : ℚ)) = true then
            "Images match within tolerance (" ++ toString (5 : ℚ) ++ "%)"
          else "Images exceed tolerance (" ++ toString (5 : ℚ) ++ "%)" } =
    .ok sampleTolResult
  rw [hd]
  rfl

theorem failRun_ok : (compareImagesRun fsBW "a" "b" {} 0).1 =
    .ok failRunResult := by
  have hfa : fsBW "a" = some sampleImage := by simp [fsBW]
  have hfb : fsBW "b" = some sampleWhite := by simp [fsBW]
  have hc : divergentCount (policyOf (mergeOptions {})) sampleImage sampleWhite
      = 1 := by decide
  have hm : misMatchOf (policyOf (mergeOptions {})) sampleImage sampleWhite
      = 100 := by
    unfold misMatchOf
    rw [hc]
    norm_num [sampleImage]
  have ha : analyse (policyOf (mergeOptions {})) sampleImage sampleWhite = .ok
      { misMatchPercentage := 100
        rawMisMatchPercentage := 100
        isSameDimensions := true
        dimensionDifference := (0, 0)
        diffImage := renderDiff (policyOf (mergeOptions {})) sampleImage
          sampleWhite } := by
    unfold analyse
    rw [if_pos ⟨rfl, rfl⟩, hm]
  simp [compareImagesRun, hfa, hfb, ha, failRunResult]

theorem failTol_ok : compareImagesWithTolerance fsBW "a" "b" 5 {} 0 =
    .ok failTolResult := by
  have hd : decide (failRunResult.misMatchPercentage ≤ (5 : ℚ)) = false :=
    decide_eq_false (by norm_num [failRunResult])
  unfold compareImagesWithTolerance
  rw [failRun_ok]
  show Except.ok
      { result := failRunResult
        passed := decide (failRunResult.misMatchPercentage ≤ (5 : ℚ))
        tolerance := (5 : ℚ)
        status :=
          if decide (failRunResult.misMatchPercentage ≤ (5 : ℚ)) = true then
            "PASS"
          else "FAIL"
        message :=
          if decide (failRunResult.misMatchPercentage ≤ (5 : ℚ)) = true then
            "Images match within tolerance (" ++ toString (5 : ℚ) ++ "%)"
          else "Images exceed tolerance (" ++ toString (5 : ℚ) ++ "%)" } =
    .ok failTolResult
  rw [hd]
  rfl

/-- Witness for the C9 theorem on two concrete runs: a passing one
(identical 1×1 inputs, mismatch 0, status `PASS`) and a failing one
(black versus white 1×1 inputs, mismatch 100, status `FAIL`), both with
tolerance 5. -/
theorem tolerance_pass_boundary_witness :
    ((sampleTolResult.passed = true ↔
        sampleTolResult.result.misMatchPercentage ≤ 5) ∧
     (sampleTolResult.result.misMatchPercentage = 5 →
        sampleTolResult.passed = true) ∧
     ((sampleTolResult.status = "PASS") ↔ sampleTolResult.passed = true) ∧
     ((sampleTolResult.status = "FAIL") ↔ sampleTolResult.passed = false)) ∧
    ((failTolResult.passed = true ↔
        failTolResult.result.misMatchPercentage ≤ 5) ∧
     (failTolResult.result.misMatchPercentage = 5 →
        failTolResult.passed = true) ∧
     ((failTolResult.status = "PASS") ↔ failTolResult.passed = true) ∧
     ((failTolResult.status = "FAIL") ↔ failTolResult.passed = false)) :=
  ⟨tolerance_pass_boundary fsBoth "a" "b" 5 {} 0 sampleTolResult sampleTol_ok,
   tolerance_pass_boundary fsBW "a" "b" 5 {} 0 failTolResult failTol_ok⟩

/-- C3: for identical input images (the same decoded image at both paths)
and any comparison policy options, the comparison succeeds with mismatch
percentage 0, and the report derived from it carries match score 100. -/
theorem identical_images_full_match (fsys : String → Option RasterImage)
    (p1 p2 : String) (img : RasterImage) (opts : CompareOptions)
    (now now2 : Nat)
    (h1 : fsys p1 = some img) (h2 : fsys p2 = some img) :
    ∃ r, (compareImagesRun fsys p1 p2 opts now).1 = .ok r ∧
      r.misMatchPercentage = 0 ∧
      (buildCompareResponse r now2).matchScore = 100 := by
  have ha : analyse (policyOf (mergeOptions opts)) img img = .ok
      { misMatchPercentage := 0
        rawMisMatchPercentage := 0
        isSameDimensions := true
        dimensionDifference := (0, 0)
        diffImage := renderDiff (policyOf (mergeOptions opts)) img img } := by
    unfold analyse
    rw [if_pos ⟨rfl, rfl⟩, misMatchOf_self]
  refine ⟨{ misMatchPercentage := 0
            isSameDimensions := true
            dimensionDifference := (0, 0)
            analysisTime := now
            diffImagePath := diffPathOf p1
            rawMisMatchPercentage := 0 }, ?_, rfl, ?_⟩
  · simp [compareImagesRun, h1, h2, ha]
  · simp only [buildCompareResponse]
    rw [show (100 : ℚ) - 0 = 100 by ring]
    unfold round2
    rw [show (100 : ℚ) * 100 = ((10000 : ℤ) : ℚ) by norm_num, round_intCast]
    norm_num

/-- Witness for the C3 theorem: the same 1×1 image at both paths. -/
theorem identical_images_full_match_witness :
    ∃ r, (compareImagesRun fsBoth "a" "b" {} 0).1 = .ok r ∧
      r.misMatchPercentage = 0 ∧
      (buildCompareResponse r 1).matchScore = 100 :=
  identical_images_full_match fsBoth "a" "b" sampleImage {} 0 1
    (by simp [fsBoth]) (by simp [fsBoth])

/-- C2: with the `scaleToSameSize` option disabled and input images of
differing dimensions, the comparison fails with the `DimensionMismatch`
condition and the call writes no diff image (no file at all). -/
theorem dimension_mismatch_fails_no_diff (fsys : String → Option RasterImage)
    (p1 p2 : String) (i1 i2 : RasterImage) (opts : CompareOptions) (now : Nat)
    (h1 : fsys p1 = some i1) (h2 : fsys p2 = some i2)
    (hscale : (mergeOptions opts).scaleToSameSize = false)
    (hdim : ¬(i1.width = i2.width ∧ i1.height = i2.height)) :
    compareImagesRun fsys p1 p2 opts now =
      (.error (.engineFailure .DimensionMismatch), []) := by
  have ha : analyse (policyOf (mergeOptions opts)) i1 i2 =
      .error .DimensionMismatch := by
    unfold analyse
    rw [if_neg hdim, if_neg (by simp [policyOf, hscale])]
  simp [compareImagesRun, h1, h2, ha]

/-- Witness for the C2 theorem: 1×1 versus 2×1 inputs with
`scaleToSameSize := some false`. -/
theorem dimension_mismatch_fails_no_diff_witness :
    compareImagesRun fsMismatched "a" "b"
      { scaleToSameSize := some false } 0 =
      (.error (.engineFailure .DimensionMismatch), []) :=
  dimension_mismatch_fails_no_diff fsMismatched "a" "b" sampleImage sampleWide
    { scaleToSameSize := some false } 0
    (by simp [fsMismatched]) (by simp [fsMismatched]) rfl (by decide)

/-- C5: for a 50×50 reference and a 100×100 candidate compared with
`scaleToSameSize` enabled, the comparison succeeds with
`isSameDimensions = false` and `dimensionDifference = (50, 50)` — the
delta of the original dimensions — and the diff image written has the
normalized 100×100 dimensions. -/
theorem scale_to_same_size_result (fsys : String → Option RasterImage)
    (p1 p2 : String) (i1 i2 : RasterImage) (opts : CompareOptions) (now : Nat)
    (h1 : fsys p1 = some i1) (h2 : fsys p2 = some i2)
    (hw1 : i1.width = 50) (hh1 : i1.height = 50)
    (hw2 : i2.width = 100) (hh2 : i2.height = 100)
    (hscale : (mergeOptions opts).scaleToSameSize = true) :
    ∃ r d, compareImagesRun fsys p1 p2 opts now =
        (.ok r, [(diffPathOf p1, d)]) ∧
      r.isSameDimensions = false ∧ r.dimensionDifference = (50, 50) ∧
      d.width = 100 ∧ d.height = 100 := by
  have hdim : ¬(i1.width = i2.width ∧ i1.height = i2.height) := by
    rw [hw1, hw2]
    rintro ⟨h, -⟩
    exact absurd h (by norm_num)
  have ha : analyse (policyOf (mergeOptions opts)) i1 i2 = .ok
      { misMatchPercentage := misMatchOf (policyOf (mergeOptions opts))
          (resampleTo i1 (max i1.width i2.width) (max i1.height i2.height))
          (resampleTo i2 (max i1.width i2.width) (max i1.height i2.height))
        rawMisMatchPercentage := misMatchOf (policyOf (mergeOptions opts))
          (resampleTo i1 (max i1.width i2.width) (max i1.height i2.height))
          (resampleTo i2 (max i1.width i2.width) (max i1.height i2.height))
        isSameDimensions := false
        dimensionDifference :=
          (natAbsDiff i1.width i2.width, natAbsDiff i1.height i2.height)
        diffImage := renderDiff (policyOf (mergeOptions opts))
          (resampleTo i1 (max i1.width i2.width) (max i1.height i2.height))
          (resampleTo i2 (max i1.width i2.width) (max i1.height i2.height)) }
      := by
    unfold analyse
    rw [if_neg hdim, if_pos (by simp [policyOf, hscale])]
  refine ⟨{ misMatchPercentage := misMatchOf (policyOf (mergeOptions opts))
              (resampleTo i1 (max i1.width i2.width) (max i1.height i2.height))
              (resampleTo i2 (max i1.width i2.width) (max i1.height i2.height))
            isSameDimensions := false
            dimensionDifference :=
              (natAbsDiff i1.width i2.width, natAbsDiff i1.height i2.height)
            analysisTime := now
            diffImagePath := diffPathOf p1
            rawMisMatchPercentage := misMatchOf (policyOf (mergeOptions opts))
              (resampleTo i1 (max i1.width i2.width) (max i1.height i2.height))
              (resampleTo i2 (max i1.width i2.width) (max i1.height i2.height)) },
          renderDiff (policyOf (mergeOptions opts))
            (resampleTo i1 (max i1.width i2.width) (max i1.height i2.height))
            (resampleTo i2 (max i1.width i2.width) (max i1.height i2.height)),
          ?_, rfl, ?_, ?_, ?_⟩
  · simp [compareImagesRun, h1, h2, ha]
  · rw [hw1, hh1, hw2, hh2]
    rfl
  · show max i1.width i2.width = 100
    rw [hw1, hw2]
    norm_num
  · show max i1.height i2.height = 100
    rw [hh1, hh2]
    norm_num

/-- Witness for the C5 theorem: concrete 50×50 and 100×100 images with
default options. -/
theorem scale_to_same_size_result_witness :
    ∃ r d, compareImagesRun fsScaled "a" "b" {} 0 =
        (.ok r, [(diffPathOf "a", d)]) ∧
      r.isSameDimensions = false ∧ r.dimensionDifference = (50, 50) ∧
      d.width = 100 ∧ d.height = 100 :=
  scale_to_same_size_result fsScaled "a" "b" sample50 sample100 {} 0
    (by simp [fsScaled]) (by simp [fsScaled]) rfl rfl rfl rfl rfl

/-- C8: for a same-sized image pair that differs only by an anti-aliased
edge blend — at least one pixel differs, and every differing pixel is
classified as an anti-aliasing artifact by the neighbourhood test — the
mismatch percentage reported with `ignoreAntialiasing` enabled is strictly
less than the one reported with it disabled. -/
theorem ignore_antialiasing_strictly_reduces (pol : Policy)
    (img1 img2 : RasterImage)
    (hw : img2.width = img1.width) (hh : img2.height = img1.height)
    (hpos : 0 < img1.width * img1.height)
    (hdiff : ∃ x, x < img1.width ∧ ∃ y, y < img1.height ∧
      pixelsDiffer pol.ignoreColors (img1.px x y) (img2.px x y) = true)
    (haa : ∀ x, x < img1.width → ∀ y, y < img1.height →
      pixelsDiffer pol.ignoreColors (img1.px x y) (img2.px x y) = true →
      aaArtifact img1 img2 x y = true) :
    ∃ dt df,
      analyse { pol with ignoreAntialiasing := true } img1 img2 = .ok dt ∧
      analyse { pol with ignoreAntialiasing := false } img1 img2 = .ok df ∧
      dt.misMatchPercentage < df.misMatchPercentage := by
  have hsame : img1.width = img2.width ∧ img1.height = img2.height :=
    ⟨hw.symm, hh.symm⟩
  refine ⟨{ misMatchPercentage :=
              misMatchOf { pol with ignoreAntialiasing := true } img1 img2
            rawMisMatchPercentage :=
              misMatchOf { pol with ignoreAntialiasing := true } img1 img2
            isSameDimensions := true
            dimensionDifference := (0, 0)
            diffImage :=
              renderDiff { pol with ignoreAntialiasing := true } img1 img2 },
          { misMatchPercentage :=
              misMatchOf { pol with ignoreAntialiasing := false } img1 img2
            rawMisMatchPercentage :=
              misMatchOf { pol with ignoreAntialiasing := false } img1 img2
            isSameDimensions := true
            dimensionDifference := (0, 0)
            diffImage :=
              renderDiff { pol with ignoreAntialiasing := false } img1 img2 },
          ?_, ?_, ?_⟩
  · unfold analyse
    rw [if_pos hsame]
  · unfold analyse
    rw [if_pos hsame]
  · show misMatchOf { pol with ignoreAntialiasing := true } img1 img2 <
      misMatchOf { pol with ignoreAntialiasing := false } img1 img2
    have hzero : misMatchOf { pol with ignoreAntialiasing := true } img1 img2
        = 0 := by
      unfold misMatchOf
      rw [divergentCount_eq_zero]
      · simp
      intro x hx y hy
      unfold divergent
      cases hpd : pixelsDiffer pol.ignoreColors (img1.px x y) (img2.px x y) with
      | false => simp [hpd]
      | true => simp [hpd, haa x hx y hy hpd]
    have hposf : 0 <
        misMatchOf { pol with ignoreAntialiasing := false } img1 img2 := by
      obtain ⟨x, hx, y, hy, hpd⟩ := hdiff
      refine misMatchOf_pos _ _ _ ?_ hpos
      refine divergentCount_pos _ _ _ x y hx hy ?_
      unfold divergent
      simp [hpd]
    rw [hzero]
    exact hposf

/-- Witness for the C8 theorem: the 3×3 grey-ramp pair `(aaAlt, aaBase)`,
whose single differing pixel lies inside the ramp. -/
theorem ignore_antialiasing_strictly_reduces_witness :
    ∃ dt df,
      analyse { aaPolicy with ignoreAntialiasing := true } aaAlt aaBase =
        .ok dt ∧
      analyse { aaPolicy with ignoreAntialiasing := false } aaAlt aaBase =
        .ok df ∧
      dt.misMatchPercentage < df.misMatchPercentage :=
  ignore_antialiasing_strictly_reduces aaPolicy aaAlt aaBase rfl rfl
    (by decide) ⟨1, by decide, 1, by decide, by decide⟩ (by decide)
